import Mathlib

/-!
Verification of the parameter-validation and model-mutation core of the
risuspublishing REST API (`risuspubl/api/commons.py`), as a shallow embedding.

Python values and exceptions are modelled explicitly; machine behaviour that
matters to the claims (decimal integer printing/parsing, `str.lower`,
`date.fromisoformat`, dict `KeyError` on missing keys, `get_or_404`) is
embedded as executable Lean functions.  The database is an explicit state
record: for each mapped table the list of primary-key ids present, plus the
two many-to-many association tables.

Notes on fidelity:
- `dbmodels.py` is not part of the examined sources; table names and the
  column layout of the association tables (author id first, entity id second,
  so `columns[1]` selects the entity id) are taken from the specification.
- Python floats are modelled only as integer-valued numbers; no statement
  below exercises float parsing or float arithmetic.
- `validate_date`'s default upper bound is `date.today()` at import time; the
  embedding takes both bounds as explicit arguments, as every claim does.
-/

namespace RisusPubl

/-- A Python value as it appears in a request parameter bundle or a model
field: an integer, a string, or a boolean. -/
inductive PyVal where
  | vInt (i : Int)
  | vStr (s : String)
  | vBool (b : Bool)
deriving DecidableEq, Repr

/-- A Python exception as raised by the commons module: `ValueError` with its
message, dict `KeyError` with the missing key, `TypeError`, `AttributeError`,
and the `NotFound` HTTP abort raised by `query.get_or_404`. -/
inductive PyErr where
  | valueError (msg : String)
  | keyError (key : String)
  | typeError (msg : String)
  | attributeError (msg : String)
  | notFound
deriving DecidableEq, Repr

/-! ## Decimal printing and parsing of integers

`str(x)` and `int(s)` for Python integers.  Printing is fuel-based structural
recursion so every value computes by kernel reduction.  Parsing accepts an
optional sign followed by one or more decimal digits (Python's `int` also
tolerates surrounding whitespace and inner underscores; no claim depends on
those forms). -/

/-- Big-endian decimal digits of `n`, prepended to `acc`; `fuel` bounds the
recursion and any `fuel > n` is enough. -/
def pyStrNatAux : Nat → Nat → List Char → List Char
  | 0, _, acc => acc
  | fuel + 1, n, acc =>
    if n < 10 then Nat.digitChar n :: acc
    else pyStrNatAux fuel (n / 10) (Nat.digitChar (n % 10) :: acc)

/-- Python `str(n)` for a nonnegative integer. -/
def pyStrNat (n : Nat) : String := String.mk (pyStrNatAux (n + 1) n [])

/-- Python `str(x)` for an arbitrary integer. -/
def pyStr : Int → String
  | .ofNat n => pyStrNat n
  | .negSucc m => String.mk ('-' :: pyStrNatAux (m + 2) (m + 1) [])

/-- The numeric value of a decimal digit character, `none` on anything else. -/
def digitVal (c : Char) : Option Nat :=
  if '0' ≤ c ∧ c ≤ '9' then some (c.toNat - '0'.toNat) else none

/-- Left-to-right accumulation of decimal digits; `none` as soon as a
non-digit character appears. -/
def parseDigitsAux : List Char → Nat → Option Nat
  | [], acc => some acc
  | c :: cs, acc =>
    match digitVal c with
    | none => none
    | some d => parseDigitsAux cs (acc * 10 + d)

/-- A nonempty run of decimal digits as a natural number. -/
def pyParseNat : List Char → Option Nat
  | [] => none
  | cs => parseDigitsAux cs 0

/-- Python `int(s)` on a character list: optional sign, then digits. -/
def pyParseIntChars : List Char → Option Int
  | [] => none
  | c :: cs =>
    if c = '-' then (pyParseNat cs).map (fun n => -(n : Int))
    else if c = '+' then (pyParseNat cs).map (fun n => (n : Int))
    else (pyParseNat (c :: cs)).map (fun n => (n : Int))

/-- Python `int(s)` on a string. -/
def pyParseInt (s : String) : Option Int := pyParseIntChars s.data

/-- Python `s.lower()` restricted to ASCII case folding. -/
def pyLower (s : String) : String := String.mk (s.data.map Char.toLower)

/-- Python `s.endswith('_id')`. -/
def endsWithId (param_name : String) : Bool :=
  List.isSuffixOf ('_' :: 'i' :: 'd' :: []) param_name.data

/-! ## Numeric bounds

`validate_int` and `validate_float` default their bounds to `-math.inf` and
`math.inf`; a bound is therefore either a number or an infinity. -/

/-- A numeric bound: minus infinity, a finite value, or plus infinity. -/
inductive NumBd where
  | ninf
  | fin (i : Int)
  | inf
deriving DecidableEq, Repr

/-- Whether a lower bound is at most `i`. -/
def NumBd.lbLe : NumBd → Int → Bool
  | .ninf, _ => true
  | .fin b, i => b ≤ i
  | .inf, _ => false

/-- Whether `i` is at most an upper bound. -/
def NumBd.leUb : Int → NumBd → Bool
  | _, .inf => true
  | i, .fin b => i ≤ b
  | _, .ninf => false

/-- How Python's f-string prints the bound (`-math.inf` prints as `-inf`). -/
def NumBd.pyRepr : NumBd → String
  | .ninf => "-inf"
  | .fin i => pyStr i
  | .inf => "inf"

/-- How Python's f-string prints a parameter value. -/
def PyVal.pyRepr : PyVal → String
  | .vInt i => pyStr i
  | .vStr s => s
  | .vBool b => if b then "True" else "False"

/-! ## Error messages of commons.py, verbatim from its f-strings -/

/-- Message of the `ValueError` raised by the builtin `int()` on an
unparsable literal; note it does not mention the parameter name. -/
def intParseFailMsg (param_value : String) : String :=
  "invalid literal for int() with base 10: '" ++ param_value ++ "'"

/-- Bounds-violation message of `validate_int`. -/
def intBoundsMsg (param_name : String) (i : Int) (lower_bound upper_bound : NumBd) : String :=
  "parameter " ++ param_name ++ ": supplied integer value '" ++ pyStr i
    ++ "' does not fall between [" ++ lower_bound.pyRepr ++ ", " ++ upper_bound.pyRepr ++ "]"

/-- Parse-failure message of `validate_float` (which, unlike `validate_int`,
catches the builtin error and names the parameter). -/
def floatParseFailMsg (param_name param_value : String) : String :=
  "parameter " ++ param_name ++ ": value " ++ param_value
    ++ " doesn't parse as a floating point number"

/-- Bounds-violation message of `validate_float`. -/
def floatBoundsMsg (param_name : String) (i : Int) (lower_bound upper_bound : NumBd) : String :=
  "parameter " ++ param_name ++ ": supplied float value '" ++ pyStr i
    ++ "' does not fall between [" ++ lower_bound.pyRepr ++ ", " ++ upper_bound.pyRepr ++ "]"

/-- Zero-length message of `validate_str`. -/
def zeroLenMsg (param_name : String) : String :=
  "parameter " ++ param_name ++ ": may not be zero-length"

/-- Exact-length message of `validate_str`, used when the two bounds agree. -/
def exactLenMsg (param_name param_value : String) (lower_bound : Int) : String :=
  "parameter " ++ param_name ++ ": the length of supplied string value '" ++ param_value
    ++ "' is not equal to " ++ pyStr lower_bound

/-- Length-range message of `validate_str`. -/
def strRangeMsg (param_name param_value : String) (lower_bound upper_bound : Int) : String :=
  "parameter " ++ param_name ++ ": the length of supplied string value '" ++ param_value
    ++ "' does not fall between [" ++ pyStr lower_bound ++ ", " ++ pyStr upper_bound ++ "]"

/-- Failure message of `validate_bool`. -/
def boolParseFailMsg (param_name param_value : String) : String :=
  "parameter " ++ param_name ++ ": the supplied parameter value '" ++ param_value
    ++ "' does not parse as either True or False"

/-- Missing-required-parameter message of `create_model_obj`. -/
def requiredMissingMsg (param_name : String) : String :=
  "required parameter '" ++ param_name ++ "' not present"

/-- Referential-failure message shared by `create_model_obj` and
`update_model_obj`; forward-declared here so the tablename of the target
model can be interpolated below once `Model` exists. -/
def fkMissingMsgRaw (param_name value_repr tablename : String) : String :=
  "supplied '" ++ param_name ++ "' value '" ++ value_repr
    ++ "' does not correspond to any row in the `" ++ tablename ++ "` table"

/-- No-op-update message of `update_model_obj`. -/
def noopMsg : String :=
  "update action executed with no parameters indicating fields to update"

/-- Parse-failure message of `validate_date`; the suffix after the comma is
the builtin's own message, reproduced for the isoformat case (the calendar
variants differ only in that suffix and no claim depends on it). -/
def dateParseFailMsg (param_name param_value : String) : String :=
  "parameter " ++ param_name ++ ": value " ++ param_value
    ++ " doesn't parse as a date, Invalid isoformat string: '" ++ param_value ++ "'"

/-- Message of the raw `ValueError` escaping `validate_date` when one of the
bound strings itself fails to parse (that parse is outside the try block). -/
def rawIsoFailMsg (s : String) : String :=
  "Invalid isoformat string: '" ++ s ++ "'"

/-- Bounds-violation message of `validate_date`. -/
def dateBoundsMsg (param_name param_value lower_bound upper_bound : String) : String :=
  "parameter " ++ param_name ++ ": supplied date value " ++ param_value
    ++ " does not fall within [" ++ lower_bound ++ ", " ++ upper_bound ++ "]"

/-! ## Dates -/

/-- Gregorian leap-year rule, as `datetime.date` applies it. -/
def isLeapYear (y : Nat) : Bool := (y % 4 == 0 && y % 100 != 0) || y % 400 == 0

/-- Days in a month of a given year. -/
def daysInMonth (y m : Nat) : Nat :=
  if m = 2 then (if isLeapYear y then 29 else 28)
  else if m = 4 ∨ m = 6 ∨ m = 9 ∨ m = 11 then 30
  else 31

/-- Python `date.fromisoformat`: exactly `YYYY-MM-DD`, digits in the digit
positions, and a valid calendar date with year between 1 and 9999. -/
def pyDateFromIso (s : String) : Option (Nat × Nat × Nat) :=
  match s.data with
  | [y1, y2, y3, y4, c1, m1, m2, c2, d1, d2] =>
    if c1 = '-' ∧ c2 = '-' then
      match digitVal y1, digitVal y2, digitVal y3, digitVal y4,
            digitVal m1, digitVal m2, digitVal d1, digitVal d2 with
      | some a, some b, some c, some d, some e, some f, some g, some h =>
        let y := ((a * 10 + b) * 10 + c) * 10 + d
        let mo := e * 10 + f
        let dy := g * 10 + h
        if 1 ≤ y ∧ 1 ≤ mo ∧ mo ≤ 12 ∧ 1 ≤ dy ∧ dy ≤ daysInMonth y mo then
          some (y, mo, dy)
        else none
      | _, _, _, _, _, _, _, _ => none
    else none
  | _ => none

/-- Chronological comparison of two calendar dates. -/
def dateLe : Nat × Nat × Nat → Nat × Nat × Nat → Bool
  | (y1, m1, d1), (y2, m2, d2) =>
    y1 < y2 || (y1 == y2 && (m1 < m2 || (m1 == m2 && d1 ≤ d2)))

/-! ## The five validators

Each mirrors the function of the same name in commons.py.  The `_val`
variants take the dynamically typed parameter value handed through the
create/update pipeline; the plain string versions are the documented
signature (the param value of a CGI parameter, a string). -/

/-- Python `int(x)` applied to a parameter value.  On a string the builtin
parses it or raises its own `ValueError`, which `validate_int` does not
catch. -/
def pyIntOfVal : PyVal → Except PyErr Int
  | .vInt i => .ok i
  | .vBool b => .ok (if b then 1 else 0)
  | .vStr s =>
    match pyParseInt s with
    | some i => .ok i
    | none => .error (.valueError (intParseFailMsg s))

/-- Body of `validate_int` on a dynamically typed value: parse via `int()`
(uncaught on failure), then bounds-check. -/
def validate_int_val (param_name : String) (param_value : PyVal)
    (lower_bound upper_bound : NumBd) : Except PyErr Int :=
  match pyIntOfVal param_value with
  | .error e => .error e
  | .ok param_int_value =>
    if !(lower_bound.lbLe param_int_value && NumBd.leUb param_int_value upper_bound) then
      .error (.valueError (intBoundsMsg param_name param_int_value lower_bound upper_bound))
    else .ok param_int_value

/-- `validate_int` of commons.py on its documented string input. -/
def validate_int (param_name param_value : String)
    (lower_bound upper_bound : NumBd) : Except PyErr Int :=
  validate_int_val param_name (.vStr param_value) lower_bound upper_bound

/-- Body of `validate_float`.  Floats are modelled as integer-valued numbers
only; the parse failure is caught and renamed, unlike in `validate_int`. -/
def validate_float_val (param_name : String) (param_value : PyVal)
    (lower_bound upper_bound : NumBd) : Except PyErr Int :=
  match (match param_value with
         | .vInt i => some i
         | .vBool b => some (if b then 1 else 0)
         | .vStr s => pyParseInt s) with
  | none => .error (.valueError (floatParseFailMsg param_name param_value.pyRepr))
  | some param_float_value =>
    if !(lower_bound.lbLe param_float_value && NumBd.leUb param_float_value upper_bound) then
      .error (.valueError (floatBoundsMsg param_name param_float_value lower_bound upper_bound))
    else .ok param_float_value

/-- `validate_str` of commons.py: no parsing, only a length check; on
failure the message distinguishes a zero-length value, agreeing bounds, and
the general range case, in that order. -/
def validate_str (param_name param_value : String)
    (lower_bound upper_bound : Int) : Except PyErr String :=
  if lower_bound ≤ (param_value.length : Int) ∧ (param_value.length : Int) ≤ upper_bound then
    .ok param_value
  else if param_value.length = 0 then
    .error (.valueError (zeroLenMsg param_name))
  else if lower_bound = upper_bound then
    .error (.valueError (exactLenMsg param_name param_value lower_bound))
  else
    .error (.valueError (strRangeMsg param_name param_value lower_bound upper_bound))

/-- `validate_str` on a dynamically typed value: `len()` of a non-string
raises `TypeError`. -/
def validate_str_val (param_name : String) (param_value : PyVal)
    (lower_bound upper_bound : Int) : Except PyErr String :=
  match param_value with
  | .vStr s => validate_str param_name s lower_bound upper_bound
  | _ => .error (.typeError "object has no len()")

/-- `validate_bool` of commons.py: case-insensitive membership in the two
token sets. -/
def validate_bool (param_name param_value : String) : Except PyErr Bool :=
  if pyLower param_value ∈ (["true", "t", "yes", "1"] : List String) then .ok true
  else if pyLower param_value ∈ (["false", "f", "no", "0"] : List String) then .ok false
  else .error (.valueError (boolParseFailMsg param_name param_value))

/-- `validate_bool` on a dynamically typed value: `.lower()` of a non-string
raises `AttributeError`. -/
def validate_bool_val (param_name : String) (param_value : PyVal) : Except PyErr Bool :=
  match param_value with
  | .vStr s => validate_bool param_name s
  | _ => .error (.attributeError "object has no attribute lower")

/-- `validate_date` of commons.py: parse the value (caught, renamed), parse
both bounds (uncaught), compare, and return the ORIGINAL STRING, exactly as
the source and its docstring do. -/
def validate_date (param_name param_value lower_bound upper_bound : String) :
    Except PyErr String :=
  match pyDateFromIso param_value with
  | none => .error (.valueError (dateParseFailMsg param_name param_value))
  | some param_date_obj =>
    match pyDateFromIso lower_bound with
    | none => .error (.valueError (rawIsoFailMsg lower_bound))
    | some lower_bound_date =>
      match pyDateFromIso upper_bound with
      | none => .error (.valueError (rawIsoFailMsg upper_bound))
      | some upper_bound_date =>
        if !(dateLe lower_bound_date param_date_obj && dateLe param_date_obj upper_bound_date) then
          .error (.valueError (dateBoundsMsg param_name param_value lower_bound upper_bound))
        else .ok param_value

/-- `validate_date` on a dynamically typed value: `fromisoformat` of a
non-string raises `TypeError`. -/
def validate_date_val (param_name : String) (param_value : PyVal)
    (lower_bound upper_bound : String) : Except PyErr String :=
  match param_value with
  | .vStr s => validate_date param_name s lower_bound upper_bound
  | _ => .error (.typeError "fromisoformat: argument must be str")

/-! ## The data model and the FK mapping -/

/-- The SQLAlchemy model subclasses registered in the FK mapping of
commons.py. -/
inductive Model where
  | book
  | client
  | editor
  | manuscript
  | salesRecord
  | salesperson
  | series
deriving DecidableEq, Repr

/-- Modelled from the spec: `dbmodels.py` is not among the examined sources;
the `__tablename__` of each model subclass follows the tables the
specification lists. -/
def Model.tablename : Model → String
  | .book => "books"
  | .client => "clients"
  | .editor => "editors"
  | .manuscript => "manuscripts"
  | .salesRecord => "sales_records"
  | .salesperson => "salespeople"
  | .series => "series"

/-- The module-level dict relating id parameter names to model subclasses;
an association list, looked up with Python dict semantics (`KeyError` on a
missing key, at the use sites below).  Note `author_id` is not registered. -/
def id_params_to_model_subclasses : List (String × Model) :=
  [("book_id", .book), ("client_id", .client), ("editor_id", .editor),
   ("manuscript_id", .manuscript), ("sales_record_id", .salesRecord),
   ("salesperson_id", .salesperson), ("series_id", .series)]

/-- The database: for each mapped table the list of primary-key ids of its
rows, plus the two association tables as (author id, entity id) pairs, the
entity id being `columns[1]`. -/
structure DB where
  rows : Model → List Int
  authors_books : List (Int × Int)
  authors_manuscripts : List (Int × Int)

/-- Whether a parameter value, used as a primary-key lookup key, matches a
row id (SQLAlchemy coerces decimal strings on integer keys). -/
def pkMatches : PyVal → Int → Bool
  | .vInt i, j => i == j
  | .vStr s, j => pyParseInt s == some j
  | .vBool _, _ => false

/-- `model_subclass.query.get(param_value) is not None`. -/
def dbGet (db : DB) (m : Model) (v : PyVal) : Bool :=
  (db.rows m).any (fun i => pkMatches v i)

/-- The declared type of a request parameter, the keys of
`types_to_validators`. -/
inductive PyType where
  | tInt
  | tFloat
  | tStr
  | tBool
  | tDate
deriving DecidableEq, Repr

/-- The tuple of validator arguments stored with a parameter: bounds of the
arity the validator for its type expects. -/
inductive VArgs where
  | noArgs
  | numBounds (lower_bound upper_bound : NumBd)
  | lenBounds (lower_bound upper_bound : Int)
  | dateBounds (lower_bound upper_bound : String)
deriving DecidableEq, Repr

/-- One value of the `params_to_types_args_values` dict: the 3-tuple of
declared type, validator arguments, and (possibly null) value. -/
structure PTriple where
  param_type : PyType
  validator_args : VArgs
  param_value : Option PyVal
deriving DecidableEq, Repr

/-- The `types_to_validators` dispatch of commons.py, applied as
`validator(param_name, param_value, *validator_args)`; an argument tuple of
the wrong arity would be a Python `TypeError`. -/
def types_to_validators (param_type : PyType) (param_name : String)
    (param_value : PyVal) (validator_args : VArgs) : Except PyErr PyVal :=
  match param_type, validator_args with
  | .tInt, .numBounds lo hi => (validate_int_val param_name param_value lo hi).map PyVal.vInt
  | .tFloat, .numBounds lo hi => (validate_float_val param_name param_value lo hi).map PyVal.vInt
  | .tStr, .lenBounds lo hi => (validate_str_val param_name param_value lo hi).map PyVal.vStr
  | .tBool, .noArgs => (validate_bool_val param_name param_value).map PyVal.vBool
  | .tDate, .dateBounds lo hi => (validate_date_val param_name param_value lo hi).map PyVal.vStr
  | _, _ => .error (.typeError "validator called with arguments of the wrong arity")

/-- Referential-failure message with the target model's tablename
interpolated. -/
def fkMissingMsg (param_name : String) (param_value : PyVal) (m : Model) : String :=
  fkMissingMsgRaw param_name param_value.pyRepr m.tablename

/-- The foreign-key branch shared verbatim by `create_model_obj` and
`update_model_obj`: on a parameter name ending in `_id`, index the mapping
dict (a `KeyError` if the name is not registered) and require
`query.get(param_value)` to find a row. -/
def fkCheck (db : DB) (param_name : String) (param_value : PyVal) : Except PyErr Unit :=
  if endsWithId param_name then
    match id_params_to_model_subclasses.lookup param_name with
    | none => .error (.keyError param_name)
    | some id_model_subclass =>
      if dbGet db id_model_subclass param_value then .ok ()
      else .error (.valueError (fkMissingMsg param_name param_value id_model_subclass))
  else .ok ()

/-- An instantiated (or loaded and mutated) model object: its subclass and
the fields assigned on it. -/
structure Entity where
  subclass : Model
  fields : List (String × PyVal)
deriving DecidableEq, Repr

/-- `setattr(model_obj, param_name, v)`: last write wins. -/
def setField (e : Entity) (param_name : String) (v : PyVal) : Entity :=
  { e with fields := (e.fields.filter (fun f => f.1 != param_name)) ++ [(param_name, v)] }

/-- The parameter loop of `create_model_obj`, accumulating the
`model_obj_args` dict in iteration order: a null optional value is skipped, a
null required value raises, a non-null value passes the FK branch and then
its validator. -/
def collectArgs (db : DB) (optional_params : List String) :
    List (String × PTriple) → Except PyErr (List (String × PyVal))
  | [] => .ok []
  | (param_name, t) :: rest =>
    match t.param_value with
    | none =>
      if param_name ∈ optional_params then collectArgs db optional_params rest
      else .error (.valueError (requiredMissingMsg param_name))
    | some param_value =>
      match fkCheck db param_name param_value with
      | .error e => .error e
      | .ok _ =>
        match types_to_validators t.param_type param_name param_value t.validator_args with
        | .error e => .error e
        | .ok val =>
          match collectArgs db optional_params rest with
          | .error e => .error e
          | .ok restArgs => .ok ((param_name, val) :: restArgs)

/-- `create_model_obj` of commons.py: run the parameter loop, then and only
then instantiate `model_subclass(**model_obj_args)`. -/
def create_model_obj (db : DB) (model_subclass : Model)
    (params_to_types_args_values : List (String × PTriple))
    (optional_params : List String) : Except PyErr Entity :=
  match collectArgs db optional_params params_to_types_args_values with
  | .error e => .error e
  | .ok model_obj_args => .ok ⟨model_subclass, model_obj_args⟩

/-- The parameter loop of `update_model_obj`: null values are skipped,
non-null values pass the FK branch and their validator and are assigned by
`setattr` onto the loaded object. -/
def applyUpdates (db : DB) : Entity → List (String × PTriple) → Except PyErr Entity
  | model_obj, [] => .ok model_obj
  | model_obj, (param_name, t) :: rest =>
    match t.param_value with
    | none => applyUpdates db model_obj rest
    | some param_value =>
      match fkCheck db param_name param_value with
      | .error e => .error e
      | .ok _ =>
        match types_to_validators t.param_type param_name param_value t.validator_args with
        | .error e => .error e
        | .ok val => applyUpdates db (setField model_obj param_name val) rest

/-- `update_model_obj` of commons.py: `get_or_404` the object first (404 on a
missing id), then reject an all-null bundle as a no-op update, then run the
loop on the loaded object (modelled with no prior field assignments). -/
def update_model_obj (db : DB) (id_val : Int) (model_subclass : Model)
    (params_to_types_args_values : List (String × PTriple)) : Except PyErr Entity :=
  if id_val ∈ db.rows model_subclass then
    if params_to_types_args_values.all (fun p => (p.2).param_value.isNone) then
      .error (.valueError noopMsg)
    else applyUpdates db ⟨model_subclass, []⟩ params_to_types_args_values
  else .error .notFound

/-- `delete_model_obj` of commons.py: `get_or_404`, then for a Book or a
Manuscript first delete (and commit) every association row whose
`columns[1]` equals the id, then delete (and commit) the row itself.  The
`Authors_Manuscript` name in the source is taken, per the spec, to denote
the authors_manuscripts join table. -/
def delete_model_obj (db : DB) (id_val : Int) (model_subclass : Model) :
    Except PyErr DB :=
  if id_val ∈ db.rows model_subclass then
    let db1 : DB :=
      if model_subclass = Model.book then
        { db with authors_books := db.authors_books.filter (fun r => r.2 != id_val) }
      else if model_subclass = Model.manuscript then
        { db with authors_manuscripts := db.authors_manuscripts.filter (fun r => r.2 != id_val) }
      else db
    .ok { db1 with
          rows := fun m =>
            if m = model_subclass then (db1.rows m).filter (fun i => i != id_val)
            else db1.rows m }
  else .error .notFound

/-! ## Concrete databases used by the witnesses -/

/-- The empty database. -/
def wdbEmpty : DB := ⟨fun _ => [], [], []⟩

/-- A database in which every mapped table holds exactly the row with id 1
and the association tables are empty. -/
def wdbOnes : DB := ⟨fun _ => [1], [], []⟩

/-- A database holding one manuscript, id 5, associated with authors 1
and 2. -/
def wdbManuscript : DB :=
  ⟨fun m => if m = Model.manuscript then [5] else [], [], [(1, 5), (2, 5)]⟩

/-! ## Supporting lemmas: the decimal roundtrip `int(str(x)) = x` -/

theorem digitVal_digitChar : ∀ d : Nat, d < 10 → digitVal (Nat.digitChar d) = some d := by
  decide

theorem digitChar_ne_sign : ∀ d : Nat, d < 10 →
    Nat.digitChar d ≠ '-' ∧ Nat.digitChar d ≠ '+' := by
  decide

theorem pyStrNatAux_head (fuel : Nat) : ∀ n acc, n < fuel →
    ∃ d rest, d < 10 ∧ pyStrNatAux fuel n acc = Nat.digitChar d :: rest := by
  induction fuel with
  | zero => intro n acc h; omega
  | succ fuel ih =>
    intro n acc h
    by_cases hn : n < 10
    · exact ⟨n, acc, hn, by simp [pyStrNatAux, hn]⟩
    · obtain ⟨d, rest, hd, heq⟩ := ih (n / 10) (Nat.digitChar (n % 10) :: acc) (by omega)
      exact ⟨d, rest, hd, by simp [pyStrNatAux, hn, heq]⟩

theorem parseDigitsAux_pyStrNatAux (fuel : Nat) : ∀ n acc a, n < fuel →
    ∃ k, parseDigitsAux (pyStrNatAux fuel n acc) a = parseDigitsAux acc (a * 10 ^ k + n) := by
  induction fuel with
  | zero => intro n acc a h; omega
  | succ fuel ih =>
    intro n acc a h
    by_cases hn : n < 10
    · refine ⟨1, ?_⟩
      rw [show pyStrNatAux (fuel + 1) n acc = Nat.digitChar n :: acc by simp [pyStrNatAux, hn]]
      rw [show parseDigitsAux (Nat.digitChar n :: acc) a = parseDigitsAux acc (a * 10 + n) by
            simp [parseDigitsAux, digitVal_digitChar n hn]]
      norm_num
    · obtain ⟨k, hk⟩ := ih (n / 10) (Nat.digitChar (n % 10) :: acc) a (by omega)
      refine ⟨k + 1, ?_⟩
      rw [show pyStrNatAux (fuel + 1) n acc
            = pyStrNatAux fuel (n / 10) (Nat.digitChar (n % 10) :: acc) by
          simp [pyStrNatAux, hn]]
      rw [hk]
      rw [show parseDigitsAux (Nat.digitChar (n % 10) :: acc) (a * 10 ^ k + n / 10)
            = parseDigitsAux acc ((a * 10 ^ k + n / 10) * 10 + n % 10) by
          simp [parseDigitsAux, digitVal_digitChar (n % 10) (Nat.mod_lt n (by omega))]]
      congr 1
      have h1 : n / 10 * 10 + n % 10 = n := Nat.div_add_mod' n 10
      calc (a * 10 ^ k + n / 10) * 10 + n % 10
          = a * (10 ^ k * 10) + (n / 10 * 10 + n % 10) := by ring
        _ = a * 10 ^ (k + 1) + n := by rw [h1, pow_succ]

theorem parseDigitsAux_pyStrNat (n : Nat) :
    parseDigitsAux (pyStrNatAux (n + 1) n []) 0 = some n := by
  obtain ⟨k, hk⟩ := parseDigitsAux_pyStrNatAux (n + 1) n [] 0 (by omega)
  simpa [parseDigitsAux] using hk

theorem pyParseInt_pyStr (x : Int) : pyParseInt (pyStr x) = some x := by
  cases x with
  | ofNat n =>
    obtain ⟨d, rest, hd, heq⟩ := pyStrNatAux_head (n + 1) n [] (by omega)
    have h1 := (digitChar_ne_sign d hd).1
    have h2 := (digitChar_ne_sign d hd).2
    show pyParseIntChars (pyStrNatAux (n + 1) n []) = some (Int.ofNat n)
    rw [heq]
    simp only [pyParseIntChars, if_neg h1, if_neg h2]
    rw [show pyParseNat (Nat.digitChar d :: rest)
          = parseDigitsAux (Nat.digitChar d :: rest) 0 from rfl]
    rw [← heq, parseDigitsAux_pyStrNat]
    rfl
  | negSucc m =>
    obtain ⟨d, rest, hd, heq⟩ := pyStrNatAux_head (m + 2) (m + 1) [] (by omega)
    show pyParseIntChars ('-' :: pyStrNatAux (m + 2) (m + 1) []) = some (Int.negSucc m)
    rw [show pyParseIntChars ('-' :: pyStrNatAux (m + 2) (m + 1) [])
          = (pyParseNat (pyStrNatAux (m + 2) (m + 1) [])).map (fun n => -(n : Int)) from rfl]
    rw [heq]
    rw [show pyParseNat (Nat.digitChar d :: rest)
          = parseDigitsAux (Nat.digitChar d :: rest) 0 from rfl]
    rw [← heq]
    have h5 : parseDigitsAux (pyStrNatAux (m + 2) (m + 1) []) 0 = some (m + 1) :=
      parseDigitsAux_pyStrNat (m + 1)
    rw [h5]
    rfl

/-! ## Claim theorems for the validators -/

/-- C5: for every integer x and bounds lo ≤ hi, `validate_int("p", str(x),
lo, hi)` returns x exactly when lo ≤ x ≤ hi, and otherwise fails with the
bounds-violation ValueError. -/
theorem validate_int_str_roundtrip (x lo hi : Int) (h : lo ≤ hi) :
    (validate_int "p" (pyStr x) (.fin lo) (.fin hi) = .ok x ↔ lo ≤ x ∧ x ≤ hi)
    ∧ (¬(lo ≤ x ∧ x ≤ hi) →
        validate_int "p" (pyStr x) (.fin lo) (.fin hi)
          = .error (.valueError (intBoundsMsg "p" x (.fin lo) (.fin hi)))) := by
  have hp : pyIntOfVal (.vStr (pyStr x)) = .ok x := by
    simp [pyIntOfVal, pyParseInt_pyStr x]
  have key : validate_int "p" (pyStr x) (.fin lo) (.fin hi)
      = if !(decide (lo ≤ x) && decide (x ≤ hi)) then
          .error (.valueError (intBoundsMsg "p" x (.fin lo) (.fin hi)))
        else .ok x := by
    simp only [validate_int, validate_int_val, hp, NumBd.lbLe, NumBd.leUb]
  constructor
  · rw [key]
    by_cases h1 : lo ≤ x <;> by_cases h2 : x ≤ hi <;> simp [h1, h2]
  · intro hout
    rw [key]
    rcases not_and_or.mp hout with h1 | h2
    · simp [h1]
    · simp [h2]

/-- C5 witness at x = 3, bounds [0, 10]. -/
theorem validate_int_str_roundtrip_witness :
    validate_int "p" (pyStr 3) (.fin 0) (.fin 10) = .ok 3 :=
  (validate_int_str_roundtrip 3 0 10 (by decide)).1.mpr (by decide)

/-- C6 (code bug): on the unparsable input "abc" validate_int fails with the
builtin `int()` ValueError, whose message does not name the parameter p — it
does not even contain the character p — contrary to the validator contract
and to the function's own docstring. -/
theorem validate_int_unparsable_message :
    validate_int "p" "abc" (.fin 0) (.fin 10)
        = .error (.valueError (intParseFailMsg "abc"))
      ∧ (intParseFailMsg "abc").data.contains 'p' = false := by
  constructor
  · rfl
  · decide

/-- C7: validate_str fails exactly when the length falls outside [lo, hi],
and the failure message distinguishes the zero-length, exact-length and
general range cases. -/
theorem validate_str_spec (s : String) (lo hi : Int) (h : lo ≤ hi) :
    (validate_str "p" s lo hi = .ok s ↔ lo ≤ (s.length : Int) ∧ (s.length : Int) ≤ hi)
    ∧ (¬(lo ≤ (s.length : Int) ∧ (s.length : Int) ≤ hi) →
        (s.length = 0 → validate_str "p" s lo hi = .error (.valueError (zeroLenMsg "p")))
        ∧ (s.length ≠ 0 → lo = hi →
            validate_str "p" s lo hi = .error (.valueError (exactLenMsg "p" s lo)))
        ∧ (s.length ≠ 0 → lo ≠ hi →
            validate_str "p" s lo hi = .error (.valueError (strRangeMsg "p" s lo hi)))) := by
  by_cases hb : lo ≤ (s.length : Int) ∧ (s.length : Int) ≤ hi
  · exact ⟨by simp [validate_str, hb], fun hout => absurd hb hout⟩
  · refine ⟨?_, fun hout => ⟨?_, ?_, ?_⟩⟩
    · by_cases h0 : s.length = 0 <;> by_cases he : lo = hi <;>
        simp [validate_str, hb, h0, he]
    · intro h0
      simp [validate_str, hb, h0]
      omega
    · intro h0 he
      simp [validate_str, hb, h0, he]
      omega
    · intro h0 he; simp [validate_str, hb, h0, he]

/-- C7 witness at the empty string with the default bounds [1, 64]. -/
theorem validate_str_spec_witness :
    validate_str "p" "" 1 64 = .error (.valueError (zeroLenMsg "p")) :=
  ((validate_str_spec "" 1 64 (by decide)).2 (by decide)).1 (by decide)

/-- C8: validate_bool succeeds exactly on the strings whose lowercase form
is a true token (returning true) or a false token (returning false), and
fails on every other input. -/
theorem validate_bool_total (s : String) :
    (validate_bool "p" s = .ok true ↔ pyLower s ∈ (["true", "t", "yes", "1"] : List String))
    ∧ (validate_bool "p" s = .ok false ↔ pyLower s ∈ (["false", "f", "no", "0"] : List String))
    ∧ ((∃ e, validate_bool "p" s = .error e)
        ↔ pyLower s ∉ (["true", "t", "yes", "1"] : List String)
          ∧ pyLower s ∉ (["false", "f", "no", "0"] : List String)) := by
  by_cases h1 : pyLower s ∈ (["true", "t", "yes", "1"] : List String)
  · have h2 : pyLower s ∉ (["false", "f", "no", "0"] : List String) := by
      simp only [List.mem_cons, List.not_mem_nil, or_false] at h1 ⊢
      rcases h1 with h | h | h | h <;> rw [h] <;> decide
    refine ⟨?_, ?_, ?_⟩ <;> simp [validate_bool, h1, h2]
  · by_cases h2 : pyLower s ∈ (["false", "f", "no", "0"] : List String)
    · refine ⟨?_, ?_, ?_⟩ <;> simp [validate_bool, h1, h2]
    · refine ⟨?_, ?_, ?_⟩ <;> simp [validate_bool, h1, h2]

/-- C9 counterexample: on an input that parses as a valid in-bounds ISO
date, validate_date succeeds with the raw input string itself as the result,
not with a parsed value of a date type. -/
theorem validate_date_returns_raw_string :
    validate_date "p" "2020-01-05" "1900-01-01" "2100-12-31" = .ok "2020-01-05" := by
  rfl

/-- C9 amended: on any input that parses as a valid ISO-8601 calendar date
lying within parseable bounds, validate_date succeeds and returns the
original raw string unchanged (per its own docstring), rather than the
parsed date object. -/
theorem validate_date_ok_on_valid (s lb ub : String) (d lo hi : Nat × Nat × Nat)
    (hs : pyDateFromIso s = some d) (hlb : pyDateFromIso lb = some lo)
    (hub : pyDateFromIso ub = some hi)
    (h1 : dateLe lo d = true) (h2 : dateLe d hi = true) :
    validate_date "p" s lb ub = .ok s := by
  simp [validate_date, hs, hlb, hub, h1, h2]

/-- C9 amended witness at the leap day 2024-02-29. -/
theorem validate_date_ok_on_valid_witness :
    validate_date "p" "2024-02-29" "1900-01-01" "2100-12-31" = .ok "2024-02-29" :=
  validate_date_ok_on_valid "2024-02-29" "1900-01-01" "2100-12-31"
    (2024, 2, 29) (1900, 1, 1) (2100, 12, 31) (by rfl) (by rfl) (by rfl) (by rfl) (by rfl)

/-! ## Supporting lemmas: the create/update loops over a split bundle -/

theorem collectArgs_append (db : DB) (opt : List String)
    (l2 : List (String × PTriple)) : ∀ l1 : List (String × PTriple),
    collectArgs db opt (l1 ++ l2)
      = match collectArgs db opt l1 with
        | .error e => .error e
        | .ok a =>
          match collectArgs db opt l2 with
          | .error e => .error e
          | .ok b => .ok (a ++ b) := by
  intro l1
  induction l1 with
  | nil =>
    simp only [List.nil_append, collectArgs]
    cases collectArgs db opt l2 <;> simp
  | cons hd tl ih =>
    obtain ⟨param_name, t⟩ := hd
    obtain ⟨ty, args, val⟩ := t
    cases val with
    | none =>
      simp only [List.cons_append, collectArgs]
      by_cases hopt : param_name ∈ opt
      · simp only [if_pos hopt]
        exact ih
      · simp only [if_neg hopt]
    | some v =>
      simp only [List.cons_append, collectArgs]
      cases hfk : fkCheck db param_name v with
      | error e => rfl
      | ok u =>
        cases hv : types_to_validators ty param_name v args with
        | error e => rfl
        | ok w =>
          simp only [List.append_eq]
          rw [ih]
          cases collectArgs db opt tl with
          | error e => rfl
          | ok a =>
            cases collectArgs db opt l2 with
            | error e => rfl
            | ok b => rfl

theorem applyUpdates_append (db : DB) (l2 : List (String × PTriple)) :
    ∀ (l1 : List (String × PTriple)) (e : Entity),
    applyUpdates db e (l1 ++ l2)
      = match applyUpdates db e l1 with
        | .error err => .error err
        | .ok e2 => applyUpdates db e2 l2 := by
  intro l1
  induction l1 with
  | nil => intro e; simp [applyUpdates]
  | cons hd tl ih =>
    intro e
    obtain ⟨param_name, t⟩ := hd
    obtain ⟨ty, args, val⟩ := t
    cases val with
    | none =>
      simp only [List.cons_append, applyUpdates]
      exact ih e
    | some v =>
      simp only [List.cons_append, applyUpdates]
      cases hfk : fkCheck db param_name v with
      | error err => rfl
      | ok u =>
        cases hv : types_to_validators ty param_name v args with
        | error err => rfl
        | ok w => exact ih (setField e param_name w)

/-! ## Claim theorems for the create/update/delete pipeline -/

/-- C1: create_model_obj, handed a registered foreign-key parameter whose
non-null value matches no row of the target table, fails with the
referential ValueError as soon as the parameter loop reaches that parameter
(every earlier parameter having been processed successfully), and so never
instantiates or returns a model object. -/
theorem create_model_obj_fk_nonexistent (db : DB) (model_subclass tgt : Model)
    (pre post : List (String × PTriple)) (opt : List String)
    (param_name : String) (t : PTriple) (v : PyVal) (acc : List (String × PyVal))
    (hpre : collectArgs db opt pre = .ok acc)
    (hname : endsWithId param_name = true)
    (hreg : id_params_to_model_subclasses.lookup param_name = some tgt)
    (hval : t.param_value = some v)
    (hmiss : dbGet db tgt v = false) :
    create_model_obj db model_subclass (pre ++ (param_name, t) :: post) opt
      = .error (.valueError (fkMissingMsg param_name v tgt)) := by
  have hfk : fkCheck db param_name v = .error (.valueError (fkMissingMsg param_name v tgt)) := by
    simp [fkCheck, hname, hreg, hmiss]
  have hbad : collectArgs db opt ((param_name, t) :: post)
      = .error (.valueError (fkMissingMsg param_name v tgt)) := by
    simp only [collectArgs, hval, hfk]
  simp only [create_model_obj, collectArgs_append, hpre, hbad]

/-- C1 witness: creating a book whose editor_id is 7 against the empty
database fails referentially. -/
theorem create_model_obj_fk_nonexistent_witness :
    create_model_obj wdbEmpty Model.book
        [("editor_id", ⟨PyType.tInt, VArgs.numBounds NumBd.ninf NumBd.inf, some (PyVal.vInt 7)⟩)] []
      = .error (.valueError (fkMissingMsg "editor_id" (PyVal.vInt 7) Model.editor)) :=
  create_model_obj_fk_nonexistent wdbEmpty Model.book Model.editor [] [] []
    "editor_id" ⟨PyType.tInt, VArgs.numBounds NumBd.ninf NumBd.inf, some (PyVal.vInt 7)⟩
    (PyVal.vInt 7) [] rfl (by rfl) (by rfl) rfl (by rfl)

/-- C2: update_model_obj on an existing id with an all-null bundle fails
with the no-op-update ValueError; the update loop never runs, so no field of
the loaded object is assigned. -/
theorem update_model_obj_all_null_noop (db : DB) (id_val : Int)
    (model_subclass : Model) (params : List (String × PTriple))
    (hid : id_val ∈ db.rows model_subclass)
    (hnull : ∀ p ∈ params, (p.2).param_value = none) :
    update_model_obj db id_val model_subclass params = .error (.valueError noopMsg) := by
  have hall : (params.all fun p => (p.2).param_value.isNone) = true := by
    rw [List.all_eq_true]
    intro p hp
    rw [hnull p hp]
    rfl
  simp [update_model_obj, if_pos hid, hall]

/-- C2 witness: an all-null single-parameter bundle against a book that
exists. -/
theorem update_model_obj_all_null_noop_witness :
    update_model_obj wdbOnes 1 Model.book
        [("title", ⟨PyType.tStr, VArgs.lenBounds 1 64, none⟩)]
      = .error (.valueError noopMsg) :=
  update_model_obj_all_null_noop wdbOnes 1 Model.book
    [("title", ⟨PyType.tStr, VArgs.lenBounds 1 64, none⟩)]
    (by decide) (by decide)

/-- C3: deleting a Manuscript that has author associations first removes
every authors_manuscripts row whose entity column carries the manuscript id
and then removes the manuscript row; afterwards neither the association rows
nor the manuscript row remain. -/
theorem delete_model_obj_manuscript_cascade (db : DB) (id_val : Int)
    (hrow : id_val ∈ db.rows Model.manuscript)
    (hassoc : ∃ a, (a, id_val) ∈ db.authors_manuscripts) :
    ∃ db2, delete_model_obj db id_val Model.manuscript = .ok db2
      ∧ db2.authors_manuscripts = db.authors_manuscripts.filter (fun r => r.2 != id_val)
      ∧ (∀ a : Int, (a, id_val) ∉ db2.authors_manuscripts)
      ∧ id_val ∉ db2.rows Model.manuscript := by
  refine ⟨⟨fun m => if m = Model.manuscript
                    then (db.rows m).filter (fun i => i != id_val)
                    else db.rows m,
           db.authors_books,
           db.authors_manuscripts.filter (fun r => r.2 != id_val)⟩, ?_, rfl, ?_, ?_⟩
  · simp only [delete_model_obj, if_pos hrow]
    rfl
  · intro a ha
    simp [List.mem_filter] at ha
  · intro ha
    simp [List.mem_filter] at ha

/-- C3 witness: manuscript 5 with two author associations. -/
theorem delete_model_obj_manuscript_cascade_witness :
    (5 ∈ wdbManuscript.rows Model.manuscript)
    ∧ (∃ db2, delete_model_obj wdbManuscript 5 Model.manuscript = .ok db2
        ∧ db2.authors_manuscripts = wdbManuscript.authors_manuscripts.filter (fun r => r.2 != 5)
        ∧ (∀ a : Int, (a, 5) ∉ db2.authors_manuscripts)
        ∧ 5 ∉ db2.rows Model.manuscript) :=
  ⟨by decide, delete_model_obj_manuscript_cascade wdbManuscript 5 (by decide) ⟨1, by decide⟩⟩

/-- C4 counterexample: a bundle whose only parameter is author_id (an
'_id'-suffixed name absent from the FK mapping) makes create_model_obj
attempt the mapping lookup, which fails with KeyError, even though every
table of the database holds a row with id 1. -/
theorem create_model_obj_author_id_keyerror :
    create_model_obj wdbOnes Model.book
        [("author_id", ⟨PyType.tInt, VArgs.numBounds NumBd.ninf NumBd.inf, some (PyVal.vInt 1)⟩)] []
      = .error (.keyError "author_id") := by
  rfl

/-- C4 amended: the FK branch is triggered by the '_id' suffix alone, in
both create_model_obj and update_model_obj; an '_id'-suffixed parameter name
that is not registered in the mapping makes the dict lookup itself fail with
a KeyError rather than being skipped. -/
theorem fk_unregistered_id_keyerror :
    (∀ (db : DB) (model_subclass : Model) (pre post : List (String × PTriple))
        (opt : List String) (param_name : String) (t : PTriple) (v : PyVal)
        (acc : List (String × PyVal)),
        collectArgs db opt pre = .ok acc →
        endsWithId param_name = true →
        id_params_to_model_subclasses.lookup param_name = none →
        t.param_value = some v →
        create_model_obj db model_subclass (pre ++ (param_name, t) :: post) opt
          = .error (.keyError param_name))
    ∧ (∀ (db : DB) (id_val : Int) (model_subclass : Model)
        (pre post : List (String × PTriple)) (param_name : String) (t : PTriple)
        (v : PyVal) (e : Entity),
        id_val ∈ db.rows model_subclass →
        applyUpdates db ⟨model_subclass, []⟩ pre = .ok e →
        endsWithId param_name = true →
        id_params_to_model_subclasses.lookup param_name = none →
        t.param_value = some v →
        update_model_obj db id_val model_subclass (pre ++ (param_name, t) :: post)
          = .error (.keyError param_name)) := by
  constructor
  · intro db model_subclass pre post opt param_name t v acc hpre hname hreg hval
    have hfk : fkCheck db param_name v = .error (.keyError param_name) := by
      simp [fkCheck, hname, hreg]
    have hbad : collectArgs db opt ((param_name, t) :: post) = .error (.keyError param_name) := by
      simp only [collectArgs, hval, hfk]
    simp only [create_model_obj, collectArgs_append, hpre, hbad]
  · intro db id_val model_subclass pre post param_name t v e hid hpre hname hreg hval
    have hfk : fkCheck db param_name v = .error (.keyError param_name) := by
      simp [fkCheck, hname, hreg]
    have hnotall : ((pre ++ (param_name, t) :: post).all
        fun p => (p.2).param_value.isNone) = false := by
      rw [← Bool.not_eq_true, List.all_eq_true]
      push_neg
      refine ⟨(param_name, t), List.mem_append_right _ (List.mem_cons_self _ _), ?_⟩
      simp [hval]
    have hbad : applyUpdates db e ((param_name, t) :: post) = .error (.keyError param_name) := by
      simp only [applyUpdates, hval, hfk]
    simp only [update_model_obj, if_pos hid, hnotall, Bool.false_eq_true, if_false]
    rw [applyUpdates_append, hpre]
    exact hbad

/-- C4 amended witness: author_id against a database where every table has
row 1. -/
theorem fk_unregistered_id_keyerror_witness :
    create_model_obj wdbOnes Model.editor
        [("author_id", ⟨PyType.tInt, VArgs.numBounds NumBd.ninf NumBd.inf, some (PyVal.vInt 1)⟩)] []
      = .error (.keyError "author_id") :=
  fk_unregistered_id_keyerror.1 wdbOnes Model.editor [] [] [] "author_id"
    ⟨PyType.tInt, VArgs.numBounds NumBd.ninf NumBd.inf, some (PyVal.vInt 1)⟩
    (PyVal.vInt 1) [] rfl (by rfl) (by rfl) rfl

/-- C10: update_model_obj loads the entity before the all-null check, so an
id matching no row fails with NotFound even when every parameter value is
null — never with the no-op-update error. -/
theorem update_model_obj_missing_id_notfound (db : DB) (id_val : Int)
    (model_subclass : Model) (params : List (String × PTriple))
    (hid : id_val ∉ db.rows model_subclass)
    (hnull : ∀ p ∈ params, (p.2).param_value = none) :
    update_model_obj db id_val model_subclass params = .error .notFound := by
  simp [update_model_obj, hid]

/-- C10 witness: an all-null bundle against a series id absent from the
empty database. -/
theorem update_model_obj_missing_id_notfound_witness :
    update_model_obj wdbEmpty 3 Model.series
        [("title", ⟨PyType.tStr, VArgs.lenBounds 1 64, none⟩),
         ("volumes", ⟨PyType.tInt, VArgs.numBounds (NumBd.fin 2) NumBd.inf, none⟩)]
      = .error .notFound :=
  update_model_obj_missing_id_notfound wdbEmpty 3 Model.series
    [("title", ⟨PyType.tStr, VArgs.lenBounds 1 64, none⟩),
     ("volumes", ⟨PyType.tInt, VArgs.numBounds (NumBd.fin 2) NumBd.inf, none⟩)]
    (by decide) (by decide)

end RisusPubl
